import Mathlib

/-!
Shallow embedding of the predictive-maintenance engine
(`src/service.py`, class `PredictiveMaintenanceService`).

Modelling conventions:
* Python floats are modelled as `ℚ`; the enum-like string fields
  (`printer_status`, `filament_status`) stay `String`, as the source compares
  them with string literals.
* The `IsolationForest` model is abstracted as an arbitrary deterministic
  function `predict : List ℚ → ℚ → Bool` taking the data it was fitted on
  (`random_state=42` makes the real fit deterministic in the data) and the
  value to classify, returning `true` when the model votes "outlier"
  (`predict(...)[0] == -1` in the source).  The fitted parameters are modelled
  as the baseline list the forest was fitted on (field `baseline`).
* The sqlite table `sensor_data` is modelled as the ordered list of inserted
  rows; availability of the medium is an explicit `storeOk : Bool` input and
  an unavailable medium raises, modelled with `Except` (`store_data`,
  lines 65-81).
* `requests.get` (lines 56-63) returns `none` on any `RequestException`, so a
  cycle's fetch result is an `Option Reading`.
* `json.dump`'s exact byte format is abstracted by `serializeSnapshot`, a
  deterministic injection-like rendering; the claims only use that it is a
  function of the snapshot with nonempty output.
* Float formatting (`:.1f`) inside alert messages is abstracted by
  `toString : ℚ → String`; the message prefixes are the source's literals.
-/

/-- One telemetry sample (the JSON object returned by the simulator and
consumed by `service.py`). -/
structure Reading where
  timestamp : String
  nozzle_temp : ℚ
  bed_temp : ℚ
  printer_status : String
  filament_status : String
  print_progress : ℚ
deriving DecidableEq, Repr

/-- State of the anomaly detector inside `PredictiveMaintenanceService`
(lines 25-27): the `deque(maxlen=50)` temperature buffer, the
`model_trained` flag, and the fitted isolation-forest parameters, modelled as
the list of values the forest was fitted on (`none` before any fit). -/
structure ModelState where
  temp_buffer : List ℚ
  model_trained : Bool
  baseline : Option (List ℚ)
deriving DecidableEq, Repr

/-- `deque(maxlen=50).append` (line 25 / line 105): append on the right,
evicting the oldest (leftmost) element when the deque is full. -/
def push50 (buf : List ℚ) (v : ℚ) : List ℚ :=
  if buf.length < 50 then buf ++ [v] else buf.tail ++ [v]

/-- The alert message built at line 88 of `service.py`. -/
def hardFailureMsg (ts : String) : String :=
  "Hard Failure Alert: Printer in error state at " ++ ts

/-- The alert message built at line 93 of `service.py`. -/
def filamentJamMsg (ts : String) : String :=
  "Filament Jam Alert: Filament is jammed at " ++ ts

/-- The alert message built at line 128 of `service.py` (the `:.1f` float
formatting is abstracted by `toString`). -/
def predictiveMsg (v : ℚ) (ts : String) : String :=
  "Predictive Alert: Potential Overheating Detected! Temp: " ++ toString v ++ "°C at " ++ ts

/-- Does `pat` occur at the start of `l`? (Helper for Python's substring
test `pat in s`.) -/
def startsWith : List Char → List Char → Bool
  | [], _ => true
  | _ :: _, [] => false
  | p :: ps, c :: cs => p == c && startsWith ps cs

/-- Does `pat` occur contiguously anywhere in `l`? -/
def occursIn (pat : List Char) : List Char → Bool
  | [] => startsWith pat []
  | c :: cs => startsWith pat (c :: cs) || occursIn pat cs

/-- Python's substring containment test `pat in s` (line 139 of
`service.py`). -/
def containsStr (pat s : String) : Bool :=
  occursIn pat.toList s.toList

/-- `check_immediate_failures` (lines 83-97): a Hard Failure alert when
`printer_status == 'error'`, then a Filament Jam alert when
`filament_status == 'jammed'`, in that order. -/
def check_immediate_failures (data : Reading) : List String :=
  (if data.printer_status = "error" then [hardFailureMsg data.timestamp] else []) ++
  (if data.filament_status = "jammed" then [filamentJamMsg data.timestamp] else [])

/-- The body of `check_predictive_anomalies` (lines 99-132) at the level of a
single observed value `v = data['nozzle_temp']`: unconditionally append `v`
to the buffer (line 105); return no alert while the buffer holds fewer than
20 readings (lines 108-109); fit the model on the first 30 buffered values
the first time the buffer holds at least 30 and the model is untrained
(lines 112-117); once trained, alert when the model votes outlier or
`v > 225.0` (lines 121-131). -/
def observe (predict : List ℚ → ℚ → Bool) (s : ModelState) (v : ℚ) (ts : String) :
    ModelState × List String :=
  let buf := push50 s.temp_buffer v
  if buf.length < 20 then
    ({ s with temp_buffer := buf }, [])
  else
    let s1 : ModelState :=
      if s.model_trained = false ∧ 30 ≤ buf.length then
        { temp_buffer := buf, model_trained := true, baseline := some (buf.take 30) }
      else
        { s with temp_buffer := buf }
    if s1.model_trained = true then
      if predict (s1.baseline.getD []) v = true ∨ 225 < v then
        (s1, [predictiveMsg v ts])
      else
        (s1, [])
    else
      (s1, [])

/-- `check_predictive_anomalies` applied to a full reading. -/
def check_predictive_anomalies (predict : List ℚ → ℚ → Bool) (s : ModelState)
    (data : Reading) : ModelState × List String :=
  observe predict s data.nozzle_temp data.timestamp

/-- The anomaly-model state constructed in `__init__` (lines 25-27): empty
buffer, untrained, nothing fitted. -/
def initModel : ModelState := ⟨[], false, none⟩

/-- The anomaly-model state after observing the values `vs` in order,
starting from `initModel`.  (The timestamp argument only affects the alert
message text, never the state, so a fixed dummy is used.) -/
def runModel (predict : List ℚ → ℚ → Bool) (vs : List ℚ) : ModelState :=
  vs.foldl (fun s v => (observe predict s v "ts").1) initModel

/-- The anomaly-model state together with the per-step alert outputs after
observing the values `vs` in order from `initModel`. -/
def runModelTrace (predict : List ℚ → ℚ → Bool) (vs : List ℚ) :
    ModelState × List (List String) :=
  vs.foldl
    (fun p v => ((observe predict p.1 v "ts").1, p.2 ++ [(observe predict p.1 v "ts").2]))
    (initModel, [])

/-- The aggregate status expression of lines 139-140:
`"error" if any("Hard Failure" in alert for alert in alerts) else "warning" if alerts else "normal"`. -/
def systemStatus (alerts : List String) : String :=
  if alerts.any (fun a => containsStr "Hard Failure" a) then "error"
  else if alerts.isEmpty = false then "warning"
  else "normal"

/-- The status record assembled by `update_status_file` (lines 134-141);
`now` stands for `datetime.now().isoformat()`. -/
structure StatusSnapshot where
  current_data : Reading
  active_alerts : List String
  last_updated : String
  system_status : String
deriving DecidableEq, Repr

/-- The snapshot dict built at lines 135-141. -/
def update_status_file (data : Reading) (alerts : List String) (now : String) :
    StatusSnapshot :=
  { current_data := data
    active_alerts := alerts
    last_updated := now
    system_status := systemStatus alerts }

/-- Deterministic rendering of a reading (part of the `json.dump`
abstraction). -/
def serializeReading (r : Reading) : String :=
  "timestamp=" ++ r.timestamp ++
  ";nozzle_temp=" ++ toString r.nozzle_temp ++
  ";bed_temp=" ++ toString r.bed_temp ++
  ";printer_status=" ++ r.printer_status ++
  ";filament_status=" ++ r.filament_status ++
  ";print_progress=" ++ toString r.print_progress

/-- Deterministic rendering of the snapshot written by `json.dump`
(line 144).  Always nonempty (it starts with a literal). -/
def serializeSnapshot (s : StatusSnapshot) : String :=
  "current_data=" ++ serializeReading s.current_data ++
  ";active_alerts=" ++ String.intercalate "|" s.active_alerts ++
  ";last_updated=" ++ s.last_updated ++
  ";system_status=" ++ s.system_status

/-- The sequence of externally observable contents of `status.json` during
`update_status_file`'s write (lines 143-144): before the call the file holds
`old`; `open(self.status_file, 'w')` truncates it to the empty string; then
`json.dump` writes the serialized snapshot.  A concurrent reader observes
one of these three states. -/
def publishStates (old newContent : String) : List String :=
  [old, "", newContent]

/-- Full engine state: anomaly-model state, the `sensor_data` rows, and the
current contents of `status.json`. -/
structure SysState where
  model : ModelState
  store : List Reading
  statusFile : String
deriving DecidableEq, Repr

/-- Engine state at startup: untrained model, empty table, no snapshot
written yet. -/
def init_state : SysState := ⟨initModel, [], ""⟩

/-- `store_data` (lines 65-81): appends one row on success; raises
(`Except.error`) when the medium is unavailable (`storeOk = false`), in
which case no row is written. -/
def store_data (storeOk : Bool) (store : List Reading) (data : Reading) :
    Except Unit (List Reading) :=
  if storeOk then Except.ok (store ++ [data]) else Except.error ()

/-- One iteration of the `while True` loop in `run` (lines 150-178).
`fetched` is the result of `poll_simulator` (`none` on a fetch failure),
`storeOk` models availability of the sqlite medium, `now` stands for
`datetime.now().isoformat()`.  Returns the engine state after the iteration
and the snapshot published this cycle, if any.  On `fetched = none` the
cycle is skipped (lines 154-156).  A `store_data` exception is caught by the
outer `except` (lines 175-176), so the rest of the cycle is skipped and the
state is left as it was at the raise point (no row written, model and
snapshot untouched).  On success the cycle runs store → immediate alerts →
predictive alerts → snapshot, in source order (lines 158-167). -/
def run_cycle (predict : List ℚ → ℚ → Bool) (st : SysState)
    (fetched : Option Reading) (storeOk : Bool) (now : String) :
    SysState × Option StatusSnapshot :=
  match fetched with
  | none => (st, none)
  | some data =>
    match store_data storeOk st.store data with
    | Except.error _ => (st, none)
    | Except.ok store1 =>
      let immediate := check_immediate_failures data
      let stepped := check_predictive_anomalies predict st.model data
      let all_alerts := immediate ++ stepped.2
      let snap := update_status_file data all_alerts now
      (⟨stepped.1, store1, serializeSnapshot snap⟩, some snap)

/-- The `while True` loop (lines 150-178) over a finite schedule of inputs,
each input being one cycle's (fetch result, medium availability, clock
value).  Total by construction: no exception escapes an iteration. -/
def run_loop (predict : List ℚ → ℚ → Bool) (st : SysState)
    (inputs : List (Option Reading × Bool × String)) : SysState :=
  inputs.foldl (fun s i => (run_cycle predict s i.1 i.2.1 i.2.2).1) st

/-- An isolation-forest abstraction that never votes outlier (used for
concrete witnesses; the theorems quantify over every `predict`). -/
def predictNone : List ℚ → ℚ → Bool := fun _ _ => false

/-- A normal printing reading (used by concrete witnesses). -/
def data_ok : Reading := ⟨"T", 210, 60, "printing", "ok", 50⟩

/-- A reading with a jammed filament while printing (spec §8, scenario D). -/
def data_jam : Reading := ⟨"T", 210, 60, "printing", "jammed", 50⟩

/-- A reading with the printer in the error state. -/
def data_err : Reading := ⟨"T", 210, 60, "error", "ok", 45⟩

/-- A reading with both immediate failure conditions at once. -/
def data_both : Reading := ⟨"T", 210, 60, "error", "jammed", 45⟩

/-- A reading whose nozzle temperature is far below absolute zero, hence out
of range under any reading of "valid". -/
def data_cold : Reading := ⟨"T", -500, 60, "printing", "ok", 0⟩

/-- Snapshot published for a quiet cycle (used in concrete statements). -/
def snapQuiet : StatusSnapshot := update_status_file data_ok [] "n1"

/-- Snapshot published for a hard-failure cycle (used in concrete
statements). -/
def snapHard : StatusSnapshot := update_status_file data_err [hardFailureMsg "T"] "n2"

/-- Snapshot published for the `data_err` cycle from the initial state. -/
def snapErr : StatusSnapshot :=
  { current_data := data_err
    active_alerts := [hardFailureMsg "T"]
    last_updated := "n"
    system_status := "error" }

/-- Snapshot published for the `data_both` cycle from the initial state. -/
def snapBoth : StatusSnapshot :=
  { current_data := data_both
    active_alerts := [hardFailureMsg "T", filamentJamMsg "T"]
    last_updated := "n"
    system_status := "error" }


theorem observe_fst_buffer (predict : List ℚ → ℚ → Bool) (s : ModelState) (v : ℚ)
    (ts : String) : (observe predict s v ts).1.temp_buffer = push50 s.temp_buffer v := by
  unfold observe
  dsimp only
  split_ifs <;> rfl

theorem push50_length (buf : List ℚ) (v : ℚ) (h : buf.length ≤ 50) :
    (push50 buf v).length = min (buf.length + 1) 50 := by
  unfold push50
  split_ifs with h1
  · simp only [List.length_append, List.length_singleton]
    omega
  · simp only [List.length_append, List.length_tail, List.length_singleton]
    omega

theorem observe_fst_trained (predict : List ℚ → ℚ → Bool) (s : ModelState) (v : ℚ)
    (ts : String) :
    (observe predict s v ts).1.model_trained
      = (s.model_trained || decide (30 ≤ (push50 s.temp_buffer v).length)) := by
  unfold observe
  dsimp only
  split_ifs with h1 h2 h3 h4 <;> simp_all
  all_goals omega

theorem observe_fst_baseline (predict : List ℚ → ℚ → Bool) (s : ModelState) (v : ℚ)
    (ts : String) :
    (observe predict s v ts).1.baseline
      = (if s.model_trained = false ∧ 30 ≤ (push50 s.temp_buffer v).length then
          some ((push50 s.temp_buffer v).take 30)
        else s.baseline) := by
  unfold observe
  dsimp only
  split_ifs with h1 h2 h3 h4 <;> simp_all
  all_goals omega

theorem runModel_append (predict : List ℚ → ℚ → Bool) (vs : List ℚ) (v : ℚ) :
    runModel predict (vs ++ [v]) = (observe predict (runModel predict vs) v "ts").1 := by
  simp [runModel, List.foldl_append]

theorem runModel_spec (predict : List ℚ → ℚ → Bool) (vs : List ℚ) :
    (runModel predict vs).temp_buffer = vs.drop (vs.length - 50)
    ∧ (runModel predict vs).model_trained = decide (30 ≤ vs.length)
    ∧ (runModel predict vs).baseline
        = (if 30 ≤ vs.length then some (vs.take 30) else none) := by
  induction vs using List.reverseRecOn with
  | nil => simp [runModel, initModel]
  | append_singleton vs v ih =>
    obtain ⟨hb, ht, hba⟩ := ih
    have hlen : (runModel predict vs).temp_buffer.length = min vs.length 50 := by
      rw [hb, List.length_drop]; omega
    have hple : (push50 (runModel predict vs).temp_buffer v).length
        = min (vs.length + 1) 50 := by
      rw [push50_length _ _ (by omega)]; omega
    have hlv : (vs ++ [v]).length = vs.length + 1 := by simp
    refine ⟨?_, ?_, ?_⟩
    · rw [runModel_append, observe_fst_buffer, hb, hlv]
      unfold push50
      rw [List.length_drop]
      split_ifs with h1
      · have h0 : vs.length - 50 = 0 := by omega
        have h0' : vs.length + 1 - 50 = 0 := by omega
        rw [h0, h0']
        simp
      · have h50 : 50 ≤ vs.length := by omega
        rw [List.tail_drop]
        rw [List.drop_append_eq_append_drop]
        have hd : vs.length + 1 - 50 - vs.length = 0 := by omega
        rw [hd]
        simp only [List.drop_zero]
        have he : vs.length + 1 - 50 = vs.length - 50 + 1 := by omega
        rw [he]
    · rw [runModel_append, observe_fst_trained, ht, hple, hlv]
      rcases Nat.lt_or_ge vs.length 30 with h | h
      · have h1 : decide (30 ≤ vs.length) = false := by
          simp only [decide_eq_false_iff_not]; omega
        rw [h1, Bool.false_or, decide_eq_decide]
        omega
      · have h1 : decide (30 ≤ vs.length) = true := by
          simp only [decide_eq_true_eq]; omega
        have h2 : decide (30 ≤ vs.length + 1) = true := by
          simp only [decide_eq_true_eq]; omega
        rw [h1, h2, Bool.true_or]
    · rw [runModel_append, observe_fst_baseline, ht, hba, hple, hlv]
      rcases Nat.lt_or_ge vs.length 29 with hlt | hge
      · rw [if_neg (by simp only [decide_eq_false_iff_not]; omega),
           if_neg (by omega), if_neg (by omega)]
      · rcases Nat.lt_or_ge vs.length 30 with h29 | h30
        · have h29' : vs.length = 29 := by omega
          rw [if_pos (by simp only [decide_eq_false_iff_not]; exact ⟨by omega, by omega⟩),
             if_pos (by omega)]
          have h0 : vs.length - 50 = 0 := by omega
          rw [hb, h0, List.drop_zero]
          unfold push50
          rw [if_pos (by omega)]
        · rw [if_neg (by simp only [decide_eq_false_iff_not]; omega),
             if_pos (by omega), if_pos (by omega)]
          have htk : (vs ++ [v]).take 30 = vs.take 30 := by
            rw [List.take_append_eq_append_take]
            have h0 : 30 - vs.length = 0 := by omega
            simp [h0]
          rw [htk]

theorem runModelTrace_append (predict : List ℚ → ℚ → Bool) (vs : List ℚ) (v : ℚ) :
    runModelTrace predict (vs ++ [v])
      = ((observe predict (runModelTrace predict vs).1 v "ts").1,
         (runModelTrace predict vs).2
           ++ [(observe predict (runModelTrace predict vs).1 v "ts").2]) := by
  simp [runModelTrace, List.foldl_append]

theorem runModelTrace_fst (predict : List ℚ → ℚ → Bool) (vs : List ℚ) :
    (runModelTrace predict vs).1 = runModel predict vs := by
  induction vs using List.reverseRecOn with
  | nil => rfl
  | append_singleton vs v ih => rw [runModelTrace_append, runModel_append, ih]

theorem observe_snd_of_trained_false (predict : List ℚ → ℚ → Bool) (s : ModelState)
    (v : ℚ) (ts : String) (h : (observe predict s v ts).1.model_trained = false) :
    (observe predict s v ts).2 = [] := by
  unfold observe at *
  dsimp only at *
  split_ifs at * with h1 h2 h3 <;> simp_all

theorem observe_snd_below_thirty (predict : List ℚ → ℚ → Bool) (us : List ℚ) (v : ℚ)
    (ts : String) (h : us.length + 1 < 30) :
    (observe predict (runModel predict us) v ts).2 = [] := by
  apply observe_snd_of_trained_false
  rw [observe_fst_trained]
  have hsp := runModel_spec predict us
  have hlen : (runModel predict us).temp_buffer.length = min us.length 50 := by
    rw [hsp.1, List.length_drop]; omega
  have hple : (push50 (runModel predict us).temp_buffer v).length
      = min (us.length + 1) 50 := by
    rw [push50_length _ _ (by omega)]; omega
  rw [hsp.2.1, hple]
  simp only [Bool.or_eq_false_iff, decide_eq_false_iff_not]
  omega

theorem startsWith_append_self (l t : List Char) : startsWith l (l ++ t) = true := by
  induction l with
  | nil => rfl
  | cons c cs ih => simp [startsWith, ih]

theorem occursIn_append_self (pat rest : List Char) : occursIn pat (pat ++ rest) = true := by
  cases pat with
  | nil =>
    cases rest with
    | nil => rfl
    | cons c cs => simp [occursIn, startsWith]
  | cons p ps =>
    rw [List.cons_append]
    unfold occursIn
    rw [← List.cons_append, startsWith_append_self, Bool.true_or]

theorem containsHF_hardMsg (ts : String) :
    containsStr "Hard Failure" (hardFailureMsg ts) = true := by
  unfold containsStr hardFailureMsg
  have hap : ("Hard Failure Alert: Printer in error state at " ++ ts).toList
      = "Hard Failure Alert: Printer in error state at ".toList ++ ts.toList := by
    simp [String.toList]
  rw [hap,
    show "Hard Failure Alert: Printer in error state at ".toList
      = "Hard Failure".toList ++ " Alert: Printer in error state at ".toList from by decide,
    List.append_assoc]
  exact occursIn_append_self _ _

theorem run_cycle_some (predict : List ℚ → ℚ → Bool) (st : SysState) (data : Reading)
    (now : String) :
    run_cycle predict st (some data) true now
      = (⟨(check_predictive_anomalies predict st.model data).1,
          st.store ++ [data],
          serializeSnapshot (update_status_file data
            (check_immediate_failures data
              ++ (check_predictive_anomalies predict st.model data).2) now)⟩,
         some (update_status_file data
            (check_immediate_failures data
              ++ (check_predictive_anomalies predict st.model data).2) now)) := by
  simp [run_cycle, store_data]

/-- C9: on a fetch failure (`poll_simulator` returns `None`, lines 153-156)
the cycle is skipped entirely — the engine state (anomaly model, reading
store, status file) is returned unchanged and nothing is published — and the
loop simply continues with the remaining schedule. -/
theorem fetch_failure_skips_cycle (predict : List ℚ → ℚ → Bool) (st : SysState)
    (storeOk : Bool) (now : String) (rest : List (Option Reading × Bool × String)) :
    run_cycle predict st none storeOk now = (st, none)
    ∧ run_loop predict st ((none, storeOk, now) :: rest) = run_loop predict st rest := by
  refine ⟨rfl, ?_⟩
  simp [run_loop, run_cycle]

/-- C2 counterexample: with the store unavailable, the cycle does NOT
proceed to detection and publishing — no snapshot is produced and the
anomaly-model buffer is left untouched (the reading is never fed to
`check_predictive_anomalies`), refuting the claim that detection, alerting
and publishing still run on the in-memory reading. -/
theorem store_failure_no_detection_or_publish :
    (run_cycle predictNone init_state (some data_ok) false "n").2 = none
    ∧ (run_cycle predictNone init_state (some data_ok) false "n").1.model.temp_buffer
        = [] := by
  exact ⟨rfl, rfl⟩

/-- C2 (amended): when the store append fails, the exception is caught by
the loop's outer handler (lines 175-176): the remainder of the cycle is
skipped — no detection, no alert classification, no snapshot — the engine
state is unchanged, and the loop never crashes, continuing with the
remaining schedule. -/
theorem store_failure_cycle_skipped (predict : List ℚ → ℚ → Bool) (st : SysState)
    (data : Reading) (now : String) (rest : List (Option Reading × Bool × String)) :
    run_cycle predict st (some data) false now = (st, none)
    ∧ run_loop predict st ((some data, false, now) :: rest) = run_loop predict st rest := by
  constructor
  · simp [run_cycle, store_data]
  · simp [run_loop, run_cycle, store_data]

/-- C3 counterexample: `update_status_file` truncates `status.json` in place
(`open(..., 'w')`) before `json.dump` writes the new contents, so a reader
running concurrently with publish can observe the truncated (empty) file —
a state that is neither the old snapshot nor the new one.  The replacement
is not atomic. -/
theorem publish_truncation_visible :
    "" ∈ publishStates (serializeSnapshot snapQuiet) (serializeSnapshot snapHard)
    ∧ "" ≠ serializeSnapshot snapQuiet
    ∧ "" ≠ serializeSnapshot snapHard := by
  refine ⟨by simp [publishStates], by decide, by decide⟩

/-- C3 (amended): publishing overwrites `status.json` in place — truncate,
then write — so the final observable content always equals the serialized
snapshot, and publishing the same snapshot twice leaves the final content
unchanged; but the transient truncated state remains observable by a
concurrent reader even then. -/
theorem publish_overwrites_in_place (old : String) (snap : StatusSnapshot) :
    (publishStates old (serializeSnapshot snap)).getLast?
        = some (serializeSnapshot snap)
    ∧ "" ∈ publishStates old (serializeSnapshot snap)
    ∧ publishStates (serializeSnapshot snap) (serializeSnapshot snap)
        = [serializeSnapshot snap, "", serializeSnapshot snap] := by
  refine ⟨rfl, by simp [publishStates], rfl⟩

/-- C4 counterexample: a reading with a wildly out-of-range nozzle
temperature (-500 °C, below absolute zero) is NOT excluded from the anomaly
buffer — `check_predictive_anomalies` appends it unconditionally (line 105)
— while the reading is also persisted; the exclusion the claim describes
does not exist in the code. -/
theorem out_of_range_temp_not_excluded :
    (-500 : ℚ) ∈ (run_cycle predictNone init_state (some data_cold) true "n").1.model.temp_buffer
    ∧ data_cold ∈ (run_cycle predictNone init_state (some data_cold) true "n").1.store := by
  constructor <;> decide

/-- C4 (amended): the code performs no validation of the nozzle temperature:
for every fetched reading, whatever its temperature, the value is appended
to the anomaly-model buffer and the reading is persisted to the store. -/
theorem nozzle_temp_always_buffered_and_persisted (predict : List ℚ → ℚ → Bool)
    (st : SysState) (data : Reading) (now : String) :
    data.nozzle_temp ∈ (run_cycle predict st (some data) true now).1.model.temp_buffer
    ∧ data ∈ (run_cycle predict st (some data) true now).1.store := by
  rw [run_cycle_some]
  dsimp only
  constructor
  · rw [check_predictive_anomalies, observe_fst_buffer]
    unfold push50
    split_ifs <;> simp
  · simp

/-- C5: once the model is trained (at least 30 values observed), any value
strictly above 225.0 produces the Predictive Overheat alert, whatever the
fitted isolation forest votes (`predict` is universally quantified): the
fixed threshold alone suffices (line 127, `prediction[0] == -1 or
temp_threshold_exceeded`). -/
theorem threshold_overrides_model_vote (predict : List ℚ → ℚ → Bool) (vs : List ℚ)
    (v : ℚ) (ts : String) (htr : 30 ≤ vs.length) (hv : 225 < v) :
    (observe predict (runModel predict vs) v ts).2 = [predictiveMsg v ts] := by
  have hsp := runModel_spec predict vs
  have hlen : (runModel predict vs).temp_buffer.length = min vs.length 50 := by
    rw [hsp.1, List.length_drop]; omega
  have htrained : (runModel predict vs).model_trained = true := by
    rw [hsp.2.1]; simp only [decide_eq_true_eq]; omega
  have hl : 30 ≤ (runModel predict vs).temp_buffer.length := by omega
  have hpl : (push50 (runModel predict vs).temp_buffer v).length
      = min ((runModel predict vs).temp_buffer.length + 1) 50 :=
    push50_length _ _ (by omega)
  unfold observe
  dsimp only
  rw [hpl, htrained]
  split_ifs with h1 h2 h3 h4 h5 h6 <;>
    first
      | rfl
      | omega
      | (exact h2.1.elim)
      | (exact absurd (Or.inr hv) h4)
      | (exact absurd rfl h3)
      | (exact absurd rfl h5)
      | (exact absurd (Or.inr hv) h6)

/-- C5 witness: after thirty normal readings at 210 °C, a 230 °C reading
fires the alert even though this forest never votes outlier. -/
theorem threshold_overrides_model_vote_witness :
    (observe predictNone (runModel predictNone (List.replicate 30 (210 : ℚ))) 230 "t").2
      = [predictiveMsg 230 "t"] :=
  threshold_overrides_model_vote predictNone (List.replicate 30 (210 : ℚ)) 230 "t"
    (by decide) (by decide)

/-- C6: over any observation sequence, the model is trained exactly when at
least 30 values have been observed; the fitted baseline is then always the
FIRST 30 values ever buffered (never the most recent 30, however long the
run); and the trained flag is monotone — once `true`, no observation resets
it. -/
theorem training_once_on_first_thirty (predict : List ℚ → ℚ → Bool) (vs : List ℚ) :
    (runModel predict vs).model_trained = decide (30 ≤ vs.length)
    ∧ (runModel predict vs).baseline
        = (if 30 ≤ vs.length then some (vs.take 30) else none)
    ∧ (∀ (s : ModelState) (w : ℚ) (ts : String), s.model_trained = true →
        (observe predict s w ts).1.model_trained = true) := by
  refine ⟨(runModel_spec predict vs).2.1, (runModel_spec predict vs).2.2, ?_⟩
  intro s w ts h
  rw [observe_fst_trained, h, Bool.true_or]

/-- C6 witness: a state with the flag already set keeps it set after one
more observation. -/
theorem training_once_on_first_thirty_witness :
    (observe predictNone ⟨List.replicate 35 (210 : ℚ), true, some (List.replicate 30 (210 : ℚ))⟩
        0 "t").1.model_trained = true :=
  (training_once_on_first_thirty predictNone []).2.2
    ⟨List.replicate 35 (210 : ℚ), true, some (List.replicate 30 (210 : ℚ))⟩ 0 "t" rfl

/-- C7: over any run of fewer than 30 observations the anomaly check never
produces an alert — every per-step alert list in the trace is empty (the
model cannot be trained yet, and untrained runs return no alert). -/
theorem no_anomaly_below_thirty (predict : List ℚ → ℚ → Bool) (vs : List ℚ)
    (h : vs.length < 30) :
    (runModelTrace predict vs).2.all (fun a => a.isEmpty) = true := by
  induction vs using List.reverseRecOn with
  | nil => rfl
  | append_singleton vs v ih =>
    rw [List.length_append, List.length_singleton] at h
    rw [runModelTrace_append]
    dsimp only
    rw [List.all_append, ih (by omega), runModelTrace_fst]
    rw [observe_snd_below_thirty predict vs v "ts" (by omega)]
    rfl

/-- C7 witness: twenty-nine extreme readings (300 °C, far above the 225 °C
threshold) still never fire an alert. -/
theorem no_anomaly_below_thirty_witness :
    (runModelTrace predictNone (List.replicate 29 (300 : ℚ))).2.all
        (fun a => a.isEmpty) = true :=
  no_anomaly_below_thirty predictNone (List.replicate 29 (300 : ℚ)) (by decide)

/-- C8: the temperature buffer never holds more than 50 values, no matter
how many have been observed; and once it is full, the next observation
evicts exactly the oldest (leftmost) value. -/
theorem buffer_bounded_and_evicts (predict : List ℚ → ℚ → Bool) (vs : List ℚ) (v : ℚ) :
    (runModel predict vs).temp_buffer.length ≤ 50
    ∧ ((runModel predict vs).temp_buffer.length = 50 →
        (observe predict (runModel predict vs) v "ts").1.temp_buffer
          = (runModel predict vs).temp_buffer.tail ++ [v]) := by
  have hsp := runModel_spec predict vs
  have hlen : (runModel predict vs).temp_buffer.length = min vs.length 50 := by
    rw [hsp.1, List.length_drop]; omega
  refine ⟨by omega, ?_⟩
  intro h50
  rw [observe_fst_buffer]
  unfold push50
  rw [if_neg (by omega)]

/-- C8 witness: after 50 zero readings the buffer is full, and the 51st
reading evicts the head. -/
theorem buffer_bounded_and_evicts_witness :
    (observe predictNone (runModel predictNone (List.replicate 50 (0 : ℚ))) 1 "ts").1.temp_buffer
      = (runModel predictNone (List.replicate 50 (0 : ℚ))).temp_buffer.tail ++ [1] :=
  (buffer_bounded_and_evicts predictNone (List.replicate 50 (0 : ℚ)) 1).2
    (by rw [(runModel_spec predictNone (List.replicate 50 (0 : ℚ))).1, List.length_drop]; simp)

theorem systemStatus_spec (alerts : List String) :
    (systemStatus alerts = "error"
      ↔ alerts.any (fun a => containsStr "Hard Failure" a) = true)
    ∧ (systemStatus alerts = "warning"
      ↔ (alerts.any (fun a => containsStr "Hard Failure" a) = false ∧ alerts ≠ []))
    ∧ (systemStatus alerts = "normal" ↔ alerts = []) := by
  unfold systemStatus
  split_ifs with h1 h2
  · have hne : alerts ≠ [] := by
      intro he; rw [he] at h1; simp at h1
    refine ⟨by simp [h1], by simp [h1], by simp [hne]⟩
  · have hne : alerts ≠ [] := by
      intro he; rw [he] at h2; simp at h2
    refine ⟨?_, by simp_all, by simp [hne]⟩
    constructor
    · intro h; exact absurd h (by decide)
    · intro h; exact absurd h (by simp_all)
  · have he : alerts = [] := by
      cases halerts : alerts with
      | nil => rfl
      | cons a l => rw [halerts] at h2; simp at h2
    subst he
    refine ⟨?_, ?_, by simp⟩
    · simp
    · constructor
      · intro h; exact absurd h (by decide)
      · intro h; exact absurd h.2 (by simp)

/-- C1 counterexample: a reading with `filament_status = jammed` and
`printer_status = printing` yields `system_status = "warning"`, not
`"error"` as the claim (and spec scenario D) requires: line 139 promotes to
`"error"` only when some alert message contains the substring
"Hard Failure", and the Filament Jam message does not, even though the spec
classifies FilamentJam as critical. -/
theorem filament_jam_only_yields_warning :
    data_jam.filament_status = "jammed" ∧ data_jam.printer_status = "printing"
    ∧ (run_cycle predictNone init_state (some data_jam) true "n").2.map
        (fun s => s.system_status) = some "warning"
    ∧ (run_cycle predictNone init_state (some data_jam) true "n").2.map
        (fun s => s.system_status) ≠ some "error" := by
  refine ⟨rfl, rfl, by decide, by decide⟩

/-- C1 (amended): in every published snapshot, `system_status` is `"error"`
iff some active alert message contains the substring "Hard Failure",
`"warning"` iff none does and the alert list is nonempty, and `"normal"`
iff there are no alerts; in particular `printer_status = "error"` always
forces `system_status = "error"` (a FilamentJam alert alone does not — it
yields `"warning"`). -/
theorem status_error_iff_hard_failure_substring (predict : List ℚ → ℚ → Bool)
    (st : SysState) (data : Reading) (now : String) (snap : StatusSnapshot)
    (h : (run_cycle predict st (some data) true now).2 = some snap) :
    (snap.system_status = "error"
      ↔ snap.active_alerts.any (fun a => containsStr "Hard Failure" a) = true)
    ∧ (snap.system_status = "warning"
      ↔ (snap.active_alerts.any (fun a => containsStr "Hard Failure" a) = false
          ∧ snap.active_alerts ≠ []))
    ∧ (snap.system_status = "normal" ↔ snap.active_alerts = [])
    ∧ (data.printer_status = "error" → snap.system_status = "error") := by
  rw [run_cycle_some] at h
  have hsnap : snap = update_status_file data
      (check_immediate_failures data
        ++ (check_predictive_anomalies predict st.model data).2) now :=
    (Option.some.inj h).symm
  subst hsnap
  dsimp only [update_status_file]
  refine ⟨(systemStatus_spec _).1, (systemStatus_spec _).2.1, (systemStatus_spec _).2.2, ?_⟩
  intro herr
  apply (systemStatus_spec _).1.mpr
  unfold check_immediate_failures
  rw [if_pos herr]
  simp [containsHF_hardMsg]

/-- C1 witness: the characterization instantiated on a concrete
printer-error cycle. -/
theorem status_error_iff_hard_failure_substring_witness :
    (snapErr.system_status = "error"
      ↔ snapErr.active_alerts.any (fun a => containsStr "Hard Failure" a) = true)
    ∧ (snapErr.system_status = "warning"
      ↔ (snapErr.active_alerts.any (fun a => containsStr "Hard Failure" a) = false
          ∧ snapErr.active_alerts ≠ []))
    ∧ (snapErr.system_status = "normal" ↔ snapErr.active_alerts = [])
    ∧ (data_err.printer_status = "error" → snapErr.system_status = "error") :=
  status_error_iff_hard_failure_substring predictNone init_state data_err "n" snapErr
    (by decide)

/-- C10: every published snapshot's alert list is exactly the immediate
alerts followed by the predictive alerts (line 164,
`immediate_alerts + predictive_alerts`); when both immediate conditions
hold, the Hard Failure message comes first, then the Filament Jam message,
then any predictive alert. -/
theorem immediate_alerts_precede_predictive (predict : List ℚ → ℚ → Bool)
    (st : SysState) (data : Reading) (now : String) (snap : StatusSnapshot)
    (h : (run_cycle predict st (some data) true now).2 = some snap) :
    snap.active_alerts
      = check_immediate_failures data
          ++ (check_predictive_anomalies predict st.model data).2
    ∧ (data.printer_status = "error" → data.filament_status = "jammed" →
        snap.active_alerts
          = hardFailureMsg data.timestamp :: filamentJamMsg data.timestamp
              :: (check_predictive_anomalies predict st.model data).2) := by
  rw [run_cycle_some] at h
  have hsnap : snap = update_status_file data
      (check_immediate_failures data
        ++ (check_predictive_anomalies predict st.model data).2) now :=
    (Option.some.inj h).symm
  subst hsnap
  dsimp only [update_status_file]
  refine ⟨rfl, ?_⟩
  intro he hj
  unfold check_immediate_failures
  rw [if_pos he, if_pos hj]
  rfl

/-- C10 witness: ordering instantiated on a concrete cycle where both
immediate conditions hold. -/
theorem immediate_alerts_precede_predictive_witness :
    snapBoth.active_alerts
      = check_immediate_failures data_both
          ++ (check_predictive_anomalies predictNone init_state.model data_both).2
    ∧ snapBoth.active_alerts
      = hardFailureMsg data_both.timestamp :: filamentJamMsg data_both.timestamp
          :: (check_predictive_anomalies predictNone init_state.model data_both).2 := by
  have h := immediate_alerts_precede_predictive predictNone init_state data_both "n"
    snapBoth (by decide)
  exact ⟨h.1, h.2 rfl rfl⟩
